import Mathlib

/-!
Verification of the OCitySMap rendering-pipeline orchestrator
(`src/ocitysmap2/__init__.py`) against its specification.

The Python module is shallowly embedded: Python strings become `List Char`,
Python `None`-able values become `Option`, raised exceptions become
`Except Err`, and the stateful external collaborators (psycopg2 database,
Mapnik renderer, cairo surfaces, i18n) are abstracted as a `World` record of
their observable behaviours.  The numeric coordinate type is `ℚ` (the source
uses Python floats only inside the external `coords` module, which is not part
of this file's source; see the `Modelled from the spec:` definitions).
-/

namespace Ocitysmap

/-- Errors raised by the orchestrator, mirroring the exceptions of
`ocitysmap2/__init__.py`:
* `assertPrecondition` — the `assert config.osmid or config.bounding_box`
  at the top of `OCitySMap.render` (line 340);
* `typeError` — Python `TypeError` from `int(None)` in
  `get_geographic_info`'s `map(str, map(int, osmids))` (line 275);
* `invalidDbStructure` — `AssertionError, 'Invalid database structure!'`
  (line 290);
* `osmidNotFound` — `AssertionError, 'OSM ID not found in the database!'`
  (line 354);
* `unsupportedFormat` — `ValueError, 'Unsupported output format ...'`
  (line 426);
* `notFoundStylesheet` — `LookupError` in `get_stylesheet_by_name`
  (line 317);
* `stageError` — an exception escaping one of the external collaborators
  (renderer registry, canvas building, shading, compositing, index builder,
  per-format rendering session). -/
inductive Stage where
  | rendererLookup
  | createCanvas
  | renderShade
  | canvasRender
  | streetIndex
  | renderSession
deriving DecidableEq, Repr

inductive Err where
  | assertPrecondition
  | typeError
  | invalidDbStructure
  | osmidNotFound
  | unsupportedFormat
  | notFoundStylesheet
  | stageError (st : Stage)
deriving DecidableEq, Repr

/-- `Except.isOk` spelled out for our error type (kept local so concrete
computations reduce by `decide`). -/
def isOk {α : Type} : Except Err α → Bool
  | Except.ok _ => true
  | Except.error _ => false

/-- Modelled from the spec: a `BoundingBox` is "a geodetic rectangle (min/max
latitude and longitude)".  The `coords` module that implements it is not part
of the embedded source file. -/
structure BoundingBox where
  lat_min : ℚ
  lat_max : ℚ
  lon_min : ℚ
  lon_max : ℚ
deriving DecidableEq, Repr

/-- Modelled from the spec: expansion "by a fractional margin on each axis"
(`coords.BoundingBox.create_expanded`); each axis grows by the given fraction
of its own span on both sides. -/
def BoundingBox.create_expanded (bb : BoundingBox) (frac_lat frac_lon : ℚ) :
    BoundingBox :=
  ⟨bb.lat_min - frac_lat * (bb.lat_max - bb.lat_min),
   bb.lat_max + frac_lat * (bb.lat_max - bb.lat_min),
   bb.lon_min - frac_lon * (bb.lon_max - bb.lon_min),
   bb.lon_max + frac_lon * (bb.lon_max - bb.lon_min)⟩

/-- Decimal-ish rendering of a coordinate used when serialising the box. -/
def ratChars (q : ℚ) : List Char := (toString q).toList

/-- Modelled from the spec: the coordinate ring of the box serialised as
well-known text, corner by corner ("lon lat" pairs, closed ring), without the
surrounding `POLYGON((...))` statement. -/
def BoundingBox.wkt_ring (bb : BoundingBox) : List Char :=
  ratChars bb.lon_min ++ ' ' :: ratChars bb.lat_min ++
  ',' :: ratChars bb.lon_min ++ ' ' :: ratChars bb.lat_max ++
  ',' :: ratChars bb.lon_max ++ ' ' :: ratChars bb.lat_max ++
  ',' :: ratChars bb.lon_max ++ ' ' :: ratChars bb.lat_min ++
  ',' :: ratChars bb.lon_min ++ ' ' :: ratChars bb.lat_min

/-- Modelled from the spec: `coords.BoundingBox.as_wkt`, which serialises the
box "as a well-known-text polygon"; the Boolean mirrors the source's
`with_polygon_statement` keyword argument. -/
def BoundingBox.as_wkt (bb : BoundingBox) (with_polygon_statement : Bool) :
    List Char :=
  if with_polygon_statement
  then "POLYGON((".toList ++ bb.wkt_ring ++ "))".toList
  else bb.wkt_ring

/-- Character class of the regular expression `[^)]`. -/
def notParen (c : Char) : Bool := c != ')'

/-- The structural content of `re.match('^POLYGON\\(\\(([^)]*)\\)\\)$', p)`
from `OCitySMap._get_shade_wkt` (line 295): the string must be
`POLYGON((` + a run of non-`)` characters + `))`, possibly followed by one
final newline (Python's `$` also matches just before a trailing `'\n'`).
Returns the captured group. -/
def matchSingleRing (s : List Char) : Option (List Char) :=
  if s.take 9 = "POLYGON((".toList then
    if (s.drop 9).dropWhile notParen = [')', ')'] ∨
       (s.drop 9).dropWhile notParen = [')', ')', '\n'] then
      some ((s.drop 9).takeWhile notParen)
    else none
  else none

/-- `OCitySMap._get_shade_wkt` (lines 292–305): on a single-ring polygon,
expand the bounding box by the fixed 5% margin on both axes and build the
two-ring multipolygon; on anything else log a warning (a pure no-op here) and
return `None`.  The function is total: it never raises. -/
def _get_shade_wkt (bounding_box : BoundingBox) (polygon : List Char) :
    Option (List Char) :=
  match matchSingleRing polygon with
  | none => none
  | some inside =>
    some ("MULTIPOLYGON(((".toList ++
          (bounding_box.create_expanded 0.05 0.05).as_wkt false ++
          ")),((".toList ++ inside ++ ")))".toList)

/-- The exact set of polygon strings accepted by `_get_shade_wkt`'s regular
expression: a bare single-ring `POLYGON((...))`, modulo Python's `$` accepting
one trailing newline. -/
def IsSingleRingPolygon (p : List Char) : Prop :=
  ∃ r, ')' ∉ r ∧
    (p = "POLYGON((".toList ++ r ++ "))".toList ∨
     p = "POLYGON((".toList ++ r ++ "))\n".toList)

/-! ## Stylesheets (`Stylesheet`, lines 114–171) -/

/-- `Stylesheet.__init__` (lines 121–132) plus the two required assignments of
`create_from_config_section`: every field the constructor initialises.  In
Python `name` and `path` start as `None` and are always overwritten from the
required configuration options before the object is used, so they are plain
fields here. -/
structure Stylesheet where
  name : List Char
  path : List Char
  description : List Char
  zoom_level : ℤ
  grid_line_color : List Char
  grid_line_alpha : ℚ
  grid_line_width : ℤ
  shade_color : List Char
  shade_alpha : ℚ
deriving DecidableEq, Repr

/-- One configuration section as `create_from_config_section` reads it through
`ConfigParser`: `name` and `path` are required (`parser.get` on them), every
other recognised option is optional (`parser.has_option` guard), already cast
to its target type (`int` / `float` / `str`). -/
structure StylesheetSection where
  name : List Char
  path : List Char
  description : Option (List Char)
  zoom_level : Option ℤ
  grid_line_color : Option (List Char)
  grid_line_alpha : Option ℚ
  grid_line_width : Option ℤ
  shade_color : Option (List Char)
  shade_alpha : Option ℚ
deriving DecidableEq, Repr

/-- The field defaults set by `Stylesheet.__init__` (lines 121–132), with the
required `name`/`path` already assigned. -/
def stylesheetWithDefaults (nm pth : List Char) : Stylesheet :=
  ⟨nm, pth, [], 16, "black".toList, 0.5, 3, "black".toList, 0.1⟩

/-- `Stylesheet.create_from_config_section` (lines 134–161): start from the
constructor's defaults, assign the required `name` and `path`, then each
`assign_if_present` overwrites exactly its own field when the option is
present in the section, in source order. -/
def create_from_config_section (sec : StylesheetSection) : Stylesheet :=
  let s := stylesheetWithDefaults sec.name sec.path
  let s := match sec.description with
           | some v => { s with description := v }
           | none => s
  let s := match sec.zoom_level with
           | some v => { s with zoom_level := v }
           | none => s
  let s := match sec.grid_line_color with
           | some v => { s with grid_line_color := v }
           | none => s
  let s := match sec.grid_line_alpha with
           | some v => { s with grid_line_alpha := v }
           | none => s
  let s := match sec.grid_line_width with
           | some v => { s with grid_line_width := v }
           | none => s
  let s := match sec.shade_color with
           | some v => { s with shade_color := v }
           | none => s
  let s := match sec.shade_alpha with
           | some v => { s with shade_alpha := v }
           | none => s
  s

/-- `OCitySMap.get_stylesheet_by_name` (lines 312–317): linear scan of the
stylesheet registry (`self.STYLESHEET_REGISTRY`, passed explicitly here)
returning the first stylesheet whose `name` matches, `LookupError` when none
does. -/
def get_stylesheet_by_name : List Stylesheet → List Char → Except Err Stylesheet
  | [], _ => Except.error Err.notFoundStylesheet
  | s :: rest, nm =>
    if s.name = nm then Except.ok s else get_stylesheet_by_name rest nm

/-! ## Geographic information (`get_geographic_info`, lines 269–290) -/

/-- One row of the spatial query `select osm_id, st_astext(..envelope..),
st_astext(..buildarea..) from planet_osm_polygon ...`: both WKT columns are
nullable in SQL, so psycopg2 hands them back as `str` or `None`. -/
structure DbRow where
  osm_id : ℤ
  envelope : Option (List Char)
  polygon : Option (List Char)
deriving DecidableEq, Repr

/-- The `(id, envelope, polygon)` triple `get_geographic_info` returns, after
`.strip()` of both WKT columns. -/
structure GeoInfo where
  osm_id : ℤ
  envelope : List Char
  polygon : List Char
deriving DecidableEq, Repr

/-- Python `str.strip()` whitespace class (the characters it strips). -/
def isPySpace (c : Char) : Bool :=
  c = ' ' ∨ c = '\t' ∨ c = '\n' ∨ c = '\r' ∨ c = '\x0b' ∨ c = '\x0c'

/-- Python `str.strip()`: trim whitespace from both ends. -/
def pyStrip (s : List Char) : List Char :=
  ((s.dropWhile isPySpace).reverse.dropWhile isPySpace).reverse

/-- The `map(lambda x: (x[0], x[1].strip(), x[2].strip()), records)` of
line 288: `.strip()` on a SQL `NULL` (Python `None`) raises
`AttributeError`, so a row with a null column makes the whole map fail. -/
def stripRows : List DbRow → Option (List GeoInfo)
  | [] => some []
  | r :: rest =>
    match r.envelope, r.polygon, stripRows rest with
    | some e, some p, some tl => some (⟨r.osm_id, pyStrip e, pyStrip p⟩ :: tl)
    | _, _, _ => none

/-- `OCitySMap.get_geographic_info` (lines 269–290).  The first statement,
`map(str, map(int, osmids))`, applies Python `int()` to every id eagerly: an
id of `None` raises `TypeError` before the spatial query is even built, so
the rows are never consulted in that case.  Otherwise the query's rows are
stripped; an `AttributeError` from a null column is caught and re-raised as
`AssertionError, 'Invalid database structure!'`. -/
def get_geographic_info (osmids : List (Option ℤ)) (rows : List DbRow) :
    Except Err (List GeoInfo) :=
  if osmids.any (fun o => o.isNone) then Except.error Err.typeError
  else
    match stripRows rows with
    | some gis => Except.ok gis
    | none => Except.error Err.invalidDbStructure

/-! ## Parsing a WKT envelope into a bounding box
(`coords.BoundingBox.parse_wkt`, not part of the embedded source file) -/

/-- Numeric value of a decimal digit character. -/
def digitVal (c : Char) : ℕ := c.toNat - '0'.toNat

/-- Natural number denoted by a digit string. -/
def natOfDigits (ds : List Char) : ℕ :=
  ds.foldl (fun acc c => 10 * acc + digitVal c) 0

/-- Unsigned decimal numeral (integer part, optional fraction) as a rational. -/
def parseUDec (s : List Char) : ℚ :=
  let intPart := s.takeWhile Char.isDigit
  let rest := s.dropWhile Char.isDigit
  let frac := match rest with
              | '.' :: fs => fs.takeWhile Char.isDigit
              | _ => []
  (natOfDigits intPart : ℚ) + (natOfDigits frac : ℚ) / ((10 : ℚ) ^ frac.length)

/-- Signed decimal numeral as a rational. -/
def parseDec (s : List Char) : ℚ :=
  match s with
  | '-' :: rest => - parseUDec rest
  | _ => parseUDec s

/-- Split a character list on a separator character. -/
def splitOnChar (sep : Char) : List Char → List (List Char)
  | [] => [[]]
  | c :: rest =>
    if c = sep then [] :: splitOnChar sep rest
    else
      match splitOnChar sep rest with
      | [] => [[c]]
      | g :: gs => (c :: g) :: gs

/-- Modelled from the spec: `coords.BoundingBox.parse_wkt` parses a
well-known-text polygon (the envelope returned by the spatial database) into
the bounding rectangle of its coordinate points ("lon lat" pairs, comma
separated). -/
def parse_wkt (s : List Char) : BoundingBox :=
  let inner :=
    (((s.dropWhile (fun c => c != '(')).dropWhile (fun c => c = '(')).takeWhile
      (fun c => c != ')'))
  let pts := (splitOnChar ',' inner).map (fun p =>
    let p := p.dropWhile (fun c => c = ' ')
    let lonC := p.takeWhile (fun c => c != ' ')
    let latC := (p.dropWhile (fun c => c != ' ')).dropWhile (fun c => c = ' ')
    (parseDec lonC, parseDec latC))
  match pts with
  | [] => ⟨0, 0, 0, 0⟩
  | pt0 :: rest =>
    rest.foldl
      (fun bb pt =>
        ⟨min bb.lat_min pt.2, max bb.lat_max pt.2,
         min bb.lon_min pt.1, max bb.lon_max pt.1⟩)
      ⟨pt0.2, pt0.2, pt0.1, pt0.1⟩

/-! ## The rendering configuration (`RenderingConfiguration`, lines 95–111) -/

/-- `RenderingConfiguration.__init__` initialises every field to `None`; the
caller fills some of them in.  `rtl` is the derived right-to-left flag the
orchestrator itself assigns at line 346 (`config.rtl = self._i18n.isrtl()`);
before that assignment the attribute does not exist, which `none` models. -/
structure RenderingConfiguration where
  title : Option (List Char)
  osmid : Option ℤ
  bounding_box : Option BoundingBox
  language : Option (List Char)
  stylesheet : Option Stylesheet
  paper_width_mm : Option ℚ
  paper_height_mm : Option ℚ
  rtl : Option Bool
deriving DecidableEq, Repr

/-- Python truthiness of `config.osmid` (an optional integer): `None` and `0`
are falsy. -/
def osmidTruthy : Option ℤ → Bool
  | none => false
  | some n => n != 0

/-- Line 346: `config.rtl = self._i18n.isrtl()`. -/
def mark_rtl (cfg : RenderingConfiguration) (rtl : Bool) : RenderingConfiguration :=
  { cfg with rtl := some rtl }

/-- Lines 356–358: `config.bounding_box = (config.bounding_box or
coords.BoundingBox.parse_wkt(osmid_geo_info[1]))` — keep the caller's box if
present (a `BoundingBox` object is always truthy), otherwise parse the
resolved envelope. -/
def fill_bbox (cfg : RenderingConfiguration) (gi : GeoInfo) : RenderingConfiguration :=
  { cfg with
    bounding_box := some (match cfg.bounding_box with
                          | some bb => bb
                          | none => parse_wkt gi.envelope) }

/-! ## The external world and the orchestrator (`render`, lines 327–394,
and `_render_one`, lines 396–439) -/

/-- Observable behaviour of the external collaborators for one `render` call:
the rows the spatial query would return, whether each external operation
succeeds, the i18n right-to-left answer, and the renderer's actual bounding
box (`renderer.canvas.get_actual_bounding_box()`).  `render_session_ok fmt`
covers the whole per-format session of `_render_one`: surface construction,
`renderer.render(rs)`, the PNG pixel write-out and `surface.finish()`. -/
structure World where
  db_rows : List DbRow
  rtl : Bool
  renderer_exists : Bool
  create_canvas_ok : Bool
  render_shade_ok : Bool
  canvas_render_ok : Bool
  street_index_ok : Bool
  render_session_ok : List Char → Bool
  actual_bounding_box : BoundingBox

/-- Everything one `render` call leaves behind: its result (normal return or
the exception it raises), the final state of the mutable configuration
object, whether the temporary workspace was created (`tempfile.mkdtemp`,
line 361), whether `_cleanup_tempdir` ran (the `finally:` of line 393, which
recursively deletes every file and directory under the workspace and then the
workspace itself), the formats the output loop entered, and the output files
completely written. -/
structure RenderOutcome where
  result : Except Err Unit
  config_out : RenderingConfiguration
  tmpdir_created : Bool
  cleanup_ran : Bool
  formats_attempted : List (List Char)
  files_written : List (List Char)
deriving Repr

/-- Python `str.lower()` on a format string. -/
def lowerStr (s : List Char) : List Char := s.map Char.toLower

/-- The format strings `_render_one` recognises (after the lowercasing of
line 343): the five graphical surfaces and the tabular `csv`. -/
def SUPPORTED_FORMATS : List (List Char) :=
  ["png".toList, "svg".toList, "svgz".toList, "pdf".toList, "ps".toList,
   "csv".toList]

/-- `OCitySMap._render_one` (lines 396–439) for one already-lowercased
format: the string-dispatch chain selects a cairo surface factory (`png`,
`svg`, `svgz`, `pdf`, `ps`), `csv` returns before any surface is created
(" We don't render maps into CSV."), and anything else raises
`ValueError, 'Unsupported output format ...'`.  On success the completed
output file's name is returned (`none` for `csv`, which writes no file). -/
def _render_one (w : World) (filename fmt : List Char) :
    Except Err (Option (List Char)) :=
  if fmt = "png".toList then
    (if w.render_session_ok fmt then Except.ok (some filename)
     else Except.error (Err.stageError Stage.renderSession))
  else if fmt = "svg".toList then
    (if w.render_session_ok fmt then Except.ok (some filename)
     else Except.error (Err.stageError Stage.renderSession))
  else if fmt = "svgz".toList then
    (if w.render_session_ok fmt then Except.ok (some filename)
     else Except.error (Err.stageError Stage.renderSession))
  else if fmt = "pdf".toList then
    (if w.render_session_ok fmt then Except.ok (some filename)
     else Except.error (Err.stageError Stage.renderSession))
  else if fmt = "ps".toList then
    (if w.render_session_ok fmt then Except.ok (some filename)
     else Except.error (Err.stageError Stage.renderSession))
  else if fmt = "csv".toList then Except.ok none
  else Except.error Err.unsupportedFormat

/-- The output file `_render_one` completes for a format that succeeds
(`none` when the format fails or is `csv`). -/
def completed_file (w : World) (fnamePre g : List Char) : Option (List Char) :=
  match _render_one w (fnamePre ++ '.' :: g) g with
  | Except.ok v => v
  | Except.error _ => none

/-- The `for output_format in output_formats:` loop of lines 387–390: build
`'%s.%s' % (file_prefix, output_format)` and call `_render_one`; the first
failure aborts the loop (the exception propagates), formats after it are
never attempted, files from earlier successful formats stay (nothing in the
source ever deletes an output file).  Returns (result, formats entered,
completed output files). -/
def render_loop (w : World) (fnamePre : List Char) :
    List (List Char) → Except Err Unit × List (List Char) × List (List Char)
  | [] => (Except.ok (), [], [])
  | f :: rest =>
    match _render_one w (fnamePre ++ '.' :: f) f with
    | Except.error e => (Except.error e, [f], [])
    | Except.ok file? =>
      let out := render_loop w fnamePre rest
      (out.1, f :: out.2.1,
       (match file? with
        | some fn => fn :: out.2.2
        | none => out.2.2))

/-- `OCitySMap.render` (lines 327–394), step for step:

1. `assert config.osmid or config.bounding_box` (line 340, Python
   truthiness);
2. lowercase the requested formats (line 343), install the locale and set
   `config.rtl` (lines 344–346);
3. `get_geographic_info([config.osmid])[0]` (lines 351–354) — unconditional,
   even when only a bounding box was supplied; an empty result (`IndexError`)
   becomes `AssertionError, 'OSM ID not found in the database!'`;
4. fill `config.bounding_box` from the envelope when absent (lines 356–358);
5. `tempfile.mkdtemp` creates the workspace (line 361);
6. look up the renderer class, build the canvas (lines 364–366);
7. shading (lines 368–376): only when `config.osmid` is truthy and the
   stripped polygon is a non-empty string, compute `_get_shade_wkt` against
   the renderer's actual bounding box and hand it to `renderer.render_shade`;
8. `renderer.canvas.render()`, street index and its renderer
   (lines 378–384);
9. the per-format output loop wrapped in `try: ... finally:
   self._cleanup_tempdir(tmpdir)` (lines 386–394).

Note the `try/finally` protects ONLY step 9: every failure in steps 6–8
happens after `mkdtemp` but outside the `finally`, so the workspace is not
cleaned up on those paths. -/
def render (cfg : RenderingConfiguration) (renderer_name : List Char)
    (output_formats : List (List Char)) (fnamePre : List Char) (w : World) :
    RenderOutcome :=
  if osmidTruthy cfg.osmid || cfg.bounding_box.isSome then
    match get_geographic_info [cfg.osmid] w.db_rows with
    | Except.error e =>
      ⟨Except.error e, mark_rtl cfg w.rtl, false, false, [], []⟩
    | Except.ok [] =>
      ⟨Except.error Err.osmidNotFound, mark_rtl cfg w.rtl, false, false, [], []⟩
    | Except.ok (gi :: _) =>
      if w.renderer_exists then
        if w.create_canvas_ok then
          if (if osmidTruthy cfg.osmid && !gi.polygon.isEmpty
              then w.render_shade_ok else true) then
            if w.canvas_render_ok then
              if w.street_index_ok then
                ⟨(render_loop w fnamePre (output_formats.map lowerStr)).1,
                 fill_bbox (mark_rtl cfg w.rtl) gi, true, true,
                 (render_loop w fnamePre (output_formats.map lowerStr)).2.1,
                 (render_loop w fnamePre (output_formats.map lowerStr)).2.2⟩
              else ⟨Except.error (Err.stageError Stage.streetIndex),
                    fill_bbox (mark_rtl cfg w.rtl) gi, true, false, [], []⟩
            else ⟨Except.error (Err.stageError Stage.canvasRender),
                  fill_bbox (mark_rtl cfg w.rtl) gi, true, false, [], []⟩
          else ⟨Except.error (Err.stageError Stage.renderShade),
                fill_bbox (mark_rtl cfg w.rtl) gi, true, false, [], []⟩
        else ⟨Except.error (Err.stageError Stage.createCanvas),
              fill_bbox (mark_rtl cfg w.rtl) gi, true, false, [], []⟩
      else ⟨Except.error (Err.stageError Stage.rendererLookup),
            fill_bbox (mark_rtl cfg w.rtl) gi, true, false, [], []⟩
  else ⟨Except.error Err.assertPrecondition, cfg, false, false, [], []⟩

/-- The render call reaches the per-format output stage (the `try:` of
line 386): the precondition holds, geometry resolution succeeds with at least
one row, and every external step up to the street index succeeds.  This is
exactly the guard structure of `render`. -/
def reaches_output (cfg : RenderingConfiguration) (w : World) : Bool :=
  if osmidTruthy cfg.osmid || cfg.bounding_box.isSome then
    match get_geographic_info [cfg.osmid] w.db_rows with
    | Except.error _ => false
    | Except.ok [] => false
    | Except.ok (gi :: _) =>
      w.renderer_exists && w.create_canvas_ok &&
      (if osmidTruthy cfg.osmid && !gi.polygon.isEmpty
       then w.render_shade_ok else true) &&
      w.canvas_render_ok && w.street_index_ok
  else false

/-! ## Concrete fixtures used by the witnesses and counterexamples -/

/-- A concrete geodetic rectangle. -/
def bbTest : BoundingBox := ⟨0, 1, 0, 1⟩

/-- A well-formed database row for OSM id 42 (envelope and administrative
polygon both present, envelope with the whitespace the database may emit). -/
def okRow : DbRow :=
  ⟨42, some " POLYGON((0 0,0 1,1 1,1 0,0 0)) ".toList,
       some "POLYGON((0 0,0 1,1 1,1 0,0 0))".toList⟩

/-- A database row for OSM id 7 whose administrative-area polygon is SQL
`NULL` (`st_buildarea` returns `NULL` for a way that encloses no area). -/
def nullPolyRow : DbRow :=
  ⟨7, some "POLYGON((0 0,0 1,1 1,1 0,0 0))".toList, none⟩

/-- A world in which every external collaborator behaves. -/
def wOK : World :=
  ⟨[okRow], false, true, true, true, true, true, fun _ => true, bbTest⟩

/-- Same world, except that `renderer.create_map_canvas()` raises. -/
def wCanvasFail : World :=
  ⟨[okRow], false, true, false, true, true, true, fun _ => true, bbTest⟩

/-- Same world, except that the per-format rendering session fails for the
`png` format (and only for it). -/
def wPngFail : World :=
  ⟨[okRow], false, true, true, true, true, true,
   fun f => !(f = "png".toList : Bool), bbTest⟩

/-- A configuration carrying an area id and no explicit bounding box. -/
def cfgOsm : RenderingConfiguration :=
  ⟨some "Chevreuse".toList, some 42, none, some "fr_FR.UTF-8".toList, none,
   some 297, some 420, none⟩

/-- A configuration carrying an explicit bounding box and no area id. -/
def cfgBbox : RenderingConfiguration :=
  ⟨some "Chevreuse".toList, none, some bbTest, some "fr_FR.UTF-8".toList, none,
   some 297, some 420, none⟩

/-- The renderer-layout name used by the fixtures. -/
def rnPlain : List Char := "plain".toList

/-- The file-name root used by the fixtures. -/
def fpTest : List Char := "/tmp/mymap".toList

/-- A concrete single polygon ring (no closing parenthesis inside). -/
def ringC5 : List Char := "1 1,1 2,2 2,2 1,1 1".toList

/-! ## Helper lemmas -/

/-- `takeWhile` over a paren-free block stops exactly at the first `)`. -/
theorem takeWhile_notParen_append (r t : List Char) (h : ')' ∉ r) :
    (r ++ ')' :: t).takeWhile notParen = r := by
  induction r with
  | nil => simp [List.takeWhile_cons, notParen]
  | cons a r ih =>
    have ha : a ≠ ')' := fun e => h (by simp [e])
    have hr : ')' ∉ r := fun hm => h (List.mem_cons_of_mem _ hm)
    simp [List.takeWhile_cons, notParen, ha, ih hr]

/-- `dropWhile` over a paren-free block drops exactly up to the first `)`. -/
theorem dropWhile_notParen_append (r t : List Char) (h : ')' ∉ r) :
    (r ++ ')' :: t).dropWhile notParen = ')' :: t := by
  induction r with
  | nil => simp [List.dropWhile_cons, notParen]
  | cons a r ih =>
    have ha : a ≠ ')' := fun e => h (by simp [e])
    have hr : ')' ∉ r := fun hm => h (List.mem_cons_of_mem _ hm)
    simp [List.dropWhile_cons, notParen, ha, ih hr]

/-- Characterisation of the regular-expression match of `_get_shade_wkt`:
it captures `r` exactly on the strings `POLYGON((r))` (optionally with one
trailing newline) where `r` contains no closing parenthesis. -/
theorem matchSingleRing_eq_some (p r : List Char) :
    matchSingleRing p = some r ↔
      ')' ∉ r ∧
        (p = "POLYGON((".toList ++ r ++ "))".toList ∨
         p = "POLYGON((".toList ++ r ++ "))\n".toList) := by
  constructor
  · intro h
    unfold matchSingleRing at h
    by_cases h9 : p.take 9 = "POLYGON((".toList
    case neg => rw [if_neg h9] at h; cases h
    rw [if_pos h9] at h
    by_cases htl : (p.drop 9).dropWhile notParen = [')', ')'] ∨
        (p.drop 9).dropWhile notParen = [')', ')', '\n']
    case neg => rw [if_neg htl] at h; cases h
    rw [if_pos htl] at h
    have hr : r = (p.drop 9).takeWhile notParen := (Option.some.injEq _ _ ▸ h).symm
    have hmem : ')' ∉ r := by
      intro hm
      subst hr
      have := List.mem_takeWhile_imp hm
      simp [notParen] at this
    refine ⟨hmem, ?_⟩
    have hsplit : p = "POLYGON((".toList ++ p.drop 9 := by
      conv_lhs => rw [← List.take_append_drop 9 p]
      rw [h9]
    have hdw : p.drop 9 = r ++ (p.drop 9).dropWhile notParen := by
      subst hr
      rw [List.takeWhile_append_dropWhile]
    rcases htl with h1 | h1
    · left
      rw [hsplit, hdw, h1, ← List.append_assoc]
      rfl
    · right
      rw [hsplit, hdw, h1, ← List.append_assoc]
      rfl
  · rintro ⟨hr, hp | hp⟩ <;> subst hp
    · have h9 : (("POLYGON((".toList ++ r ++ "))".toList).take 9) =
          "POLYGON((".toList := by
        rw [List.append_assoc]
        exact List.take_left' rfl
      have hd : (("POLYGON((".toList ++ r ++ "))".toList).drop 9) =
          r ++ [')', ')'] := by
        rw [List.append_assoc]
        exact List.drop_left' rfl
      unfold matchSingleRing
      rw [if_pos h9, hd, dropWhile_notParen_append r [')'] hr,
          if_pos (Or.inl rfl), takeWhile_notParen_append r [')'] hr]
    · have h9 : (("POLYGON((".toList ++ r ++ "))\n".toList).take 9) =
          "POLYGON((".toList := by
        rw [List.append_assoc]
        exact List.take_left' rfl
      have hd : (("POLYGON((".toList ++ r ++ "))\n".toList).drop 9) =
          r ++ [')', ')', '\n'] := by
        rw [List.append_assoc]
        exact List.drop_left' rfl
      unfold matchSingleRing
      rw [if_pos h9, hd, dropWhile_notParen_append r [')', '\n'] hr,
          if_pos (Or.inr rfl), takeWhile_notParen_append r [')', '\n'] hr]

/-- Claim C5: for every bounding box and every polygon string of the exact
single-ring form `POLYGON((ring))` (a ring holds no `)`), `_get_shade_wkt`
returns the two-ring multipolygon whose outer ring is the box expanded by the
fixed 5% margin on both axes and whose inner ring is the input ring verbatim. -/
theorem C5_shade_single_ring (bb : BoundingBox) (r : List Char)
    (h : ')' ∉ r) :
    _get_shade_wkt bb ("POLYGON((".toList ++ r ++ "))".toList) =
      some ("MULTIPOLYGON(((".toList ++
            (bb.create_expanded 0.05 0.05).as_wkt false ++
            ")),((".toList ++ r ++ ")))".toList) := by
  have hm : matchSingleRing ("POLYGON((".toList ++ r ++ "))".toList) = some r :=
    (matchSingleRing_eq_some _ r).mpr ⟨h, Or.inl rfl⟩
  unfold _get_shade_wkt
  rw [hm]

/-- Witness for C5 at a concrete box and ring. -/
theorem C5_shade_single_ring_witness :
    _get_shade_wkt bbTest ("POLYGON((".toList ++ ringC5 ++ "))".toList) =
      some ("MULTIPOLYGON(((".toList ++
            (bbTest.create_expanded 0.05 0.05).as_wkt false ++
            ")),((".toList ++ ringC5 ++ ")))".toList) :=
  C5_shade_single_ring bbTest ringC5 (by decide)

/-- Claim C8: for every bounding box and every polygon string that does not
match the exact single-ring `POLYGON((...))` shape (multi-ring strings, other
geometry types, anything else), `_get_shade_wkt` returns `none` — and, being
a total function into `Option`, it never raises. -/
theorem C8_invalid_polygon_none (bb : BoundingBox) (p : List Char) :
    _get_shade_wkt bb p = none ↔ ¬ IsSingleRingPolygon p := by
  unfold _get_shade_wkt
  cases hm : matchSingleRing p with
  | none =>
    simp only [eq_self_iff_true, true_iff]
    rintro ⟨r, hr, hp⟩
    have : matchSingleRing p = some r := (matchSingleRing_eq_some p r).mpr ⟨hr, hp⟩
    rw [hm] at this
    cases this
  | some r =>
    constructor
    · intro hcon
      cases hcon
    · intro hnot
      exfalso
      obtain ⟨hr, hp⟩ := (matchSingleRing_eq_some p r).mp hm
      exact hnot ⟨r, hr, hp⟩

/-- Once a render call reaches the per-format output stage (`reaches_output`),
its outcome is determined by the output loop: the workspace was created, the
`finally:` cleanup runs, and result / attempted formats / written files are
those of `render_loop` over the lowercased format list. -/
theorem render_reaches_loop (cfg : RenderingConfiguration) (rname : List Char)
    (fmts : List (List Char)) (fp : List Char) (w : World)
    (h : reaches_output cfg w = true) :
    (render cfg rname fmts fp w).cleanup_ran = true ∧
    (render cfg rname fmts fp w).tmpdir_created = true ∧
    (render cfg rname fmts fp w).result = (render_loop w fp (fmts.map lowerStr)).1 ∧
    (render cfg rname fmts fp w).formats_attempted =
      (render_loop w fp (fmts.map lowerStr)).2.1 ∧
    (render cfg rname fmts fp w).files_written =
      (render_loop w fp (fmts.map lowerStr)).2.2 := by
  unfold reaches_output at h
  unfold render
  by_cases h0 : osmidTruthy cfg.osmid || cfg.bounding_box.isSome
  case neg => rw [if_neg h0] at h; cases h
  rw [if_pos h0] at h ⊢
  split
  next e heq => simp only [heq] at h; exact absurd h Bool.false_ne_true
  next heq => simp only [heq] at h; exact absurd h Bool.false_ne_true
  next gi rest heq =>
    simp only [heq] at h
    rw [Bool.and_eq_true] at h
    rw [Bool.and_eq_true] at h
    rw [Bool.and_eq_true] at h
    rw [Bool.and_eq_true] at h
    obtain ⟨⟨⟨⟨h1, h2⟩, h3⟩, h4⟩, h5⟩ := h
    rw [if_pos h1, if_pos h2, if_pos h3, if_pos h4, if_pos h5]
    exact ⟨rfl, rfl, rfl, rfl, rfl⟩

/-- The output loop aborted by a failing format: every format before `f`
succeeds, `f` fails, so exactly `pre ++ [f]` are attempted, the completed
files of `pre` are on disk, and the loop's result is the propagated error. -/
theorem render_loop_abort (w : World) (fp : List Char) (pre : List (List Char))
    (f : List Char) (post : List (List Char))
    (hpre : ∀ g ∈ pre, isOk (_render_one w (fp ++ '.' :: g) g) = true)
    (hf : isOk (_render_one w (fp ++ '.' :: f) f) = false) :
    (render_loop w fp (pre ++ f :: post)).2.1 = pre ++ [f] ∧
    (render_loop w fp (pre ++ f :: post)).2.2 =
      pre.filterMap (completed_file w fp) ∧
    isOk (render_loop w fp (pre ++ f :: post)).1 = false := by
  induction pre with
  | nil =>
    simp only [List.nil_append, List.filterMap_nil]
    cases hr : _render_one w (fp ++ '.' :: f) f with
    | error e => simp [render_loop, hr, isOk]
    | ok v => rw [hr] at hf; simp [isOk] at hf
  | cons g pre ih =>
    have hg := hpre g (List.mem_cons_self g pre)
    have hrest : ∀ x ∈ pre, isOk (_render_one w (fp ++ '.' :: x) x) = true :=
      fun x hx => hpre x (List.mem_cons_of_mem g hx)
    obtain ⟨ih1, ih2, ih3⟩ := ih hrest
    cases hr : _render_one w (fp ++ '.' :: g) g with
    | error e => rw [hr] at hg; simp [isOk] at hg
    | ok v =>
      simp only [List.cons_append, render_loop, hr, List.filterMap_cons,
        completed_file, List.append_eq]
      refine ⟨by rw [ih1], ?_, ih3⟩
      cases v with
      | none => simpa using ih2
      | some fn => simpa using ih2

/-- Claim C1 (counterexample): a failure while the renderer builds its map
canvas — after `tempfile.mkdtemp` but before the `try/finally` — exits
`render` with the workspace created and `_cleanup_tempdir` never executed. -/
theorem C1_cleanup_counterexample :
    (render cfgOsm rnPlain ["pdf".toList] fpTest wCanvasFail).tmpdir_created
        = true ∧
    (render cfgOsm rnPlain ["pdf".toList] fpTest wCanvasFail).cleanup_ran
        = false := by
  exact ⟨by decide, by decide⟩

/-- Claim C1 (amended): the guaranteed recursive deletion of the temporary
workspace holds exactly for the exit paths that reach the per-format output
stage — success or any failure inside the output loop — because the
`try/finally` of lines 386–394 wraps only that loop.  Failures in canvas
rendering, shading or index building occur after `mkdtemp` but outside the
`finally`, and leak the workspace. -/
theorem C1_cleanup_amended (cfg : RenderingConfiguration) (rname : List Char)
    (fmts : List (List Char)) (fp : List Char) (w : World)
    (h : reaches_output cfg w = true) :
    (render cfg rname fmts fp w).cleanup_ran = true :=
  (render_reaches_loop cfg rname fmts fp w h).1

/-- Witness for the amended C1: the all-good world reaches the output stage
and the cleanup runs. -/
theorem C1_cleanup_amended_witness :
    (render cfgOsm rnPlain ["pdf".toList] fpTest wOK).cleanup_ran = true :=
  C1_cleanup_amended cfgOsm rnPlain ["pdf".toList] fpTest wOK (by decide)

/-- Claim C2 (code bug, evaluated at the failing input): a configuration with
an explicit bounding box and no area id does not skip the Geographic
Resolver — `render` still calls `get_geographic_info([None])`, whose
`map(int, ...)` raises `TypeError` on the absent id, so the call fails before
anything is rendered (the database itself is never queried: the outcome holds
for every world, here the all-good one). -/
theorem C2_bbox_only_raises :
    (render cfgBbox rnPlain ["pdf".toList] fpTest wOK).result =
      Except.error Err.typeError ∧
    (render cfgBbox rnPlain ["pdf".toList] fpTest wOK).tmpdir_created = false := by
  exact ⟨rfl, by decide⟩

/-- Claim C3 (code bug, evaluated at the failing input): a database row whose
administrative-area polygon is SQL `NULL` makes `get_geographic_info` raise
`AssertionError, 'Invalid database structure!'` (the `None.strip()`
`AttributeError` is caught and re-raised) instead of returning the entry with
the polygon absent. -/
theorem C3_null_polygon_raises :
    get_geographic_info [some 7] [nullPolyRow] =
      Except.error Err.invalidDbStructure := by
  rfl

/-- Claim C4 (counterexample): a configuration that carries an area id and no
explicit bounding box has its `bounding_box` field mutated by `render`
(line 357 assigns the envelope parsed from the resolver). -/
theorem C4_config_mutated_counterexample :
    cfgOsm.bounding_box.isSome = false ∧
    (render cfgOsm rnPlain ["pdf".toList] fpTest wOK).config_out.bounding_box.isSome
        = true := by
  exact ⟨by decide, rfl⟩

/-- Claim C4 (amended): when the configuration already carries a bounding
box, every field the claim lists (title, area identifier, bounding box,
language, stylesheet, paper width/height) is left unchanged by `render`;
when the bounding box is initially absent it is filled in from the resolved
envelope (see the counterexample), and the derived `rtl` flag is assigned in
either case. -/
theorem render_config_out_cases (cfg : RenderingConfiguration)
    (rname : List Char) (fmts : List (List Char)) (fp : List Char) (w : World) :
    (render cfg rname fmts fp w).config_out = cfg ∨
    (render cfg rname fmts fp w).config_out = mark_rtl cfg w.rtl ∨
    ∃ gi, (render cfg rname fmts fp w).config_out =
            fill_bbox (mark_rtl cfg w.rtl) gi := by
  unfold render
  split
  · split
    next e heq => right; left; rfl
    next heq => right; left; rfl
    next gi rest heq =>
      right; right
      refine ⟨gi, ?_⟩
      repeat' split
      all_goals rfl
  · left; rfl

theorem C4_config_immutable_amended (cfg : RenderingConfiguration)
    (rname : List Char) (fmts : List (List Char)) (fp : List Char) (w : World)
    (hbb : cfg.bounding_box.isSome = true) :
    (render cfg rname fmts fp w).config_out.title = cfg.title ∧
    (render cfg rname fmts fp w).config_out.osmid = cfg.osmid ∧
    (render cfg rname fmts fp w).config_out.bounding_box = cfg.bounding_box ∧
    (render cfg rname fmts fp w).config_out.language = cfg.language ∧
    (render cfg rname fmts fp w).config_out.stylesheet = cfg.stylesheet ∧
    (render cfg rname fmts fp w).config_out.paper_width_mm = cfg.paper_width_mm ∧
    (render cfg rname fmts fp w).config_out.paper_height_mm = cfg.paper_height_mm := by
  obtain ⟨bb, hb⟩ := Option.isSome_iff_exists.mp hbb
  rcases render_config_out_cases cfg rname fmts fp w with hco | hco | ⟨gi, hco⟩ <;>
    rw [hco]
  · exact ⟨rfl, rfl, rfl, rfl, rfl, rfl, rfl⟩
  · exact ⟨rfl, rfl, rfl, rfl, rfl, rfl, rfl⟩
  · refine ⟨rfl, rfl, ?_, rfl, rfl, rfl, rfl⟩
    simp only [fill_bbox, mark_rtl, hb]

/-- Witness for the amended C4 at a concrete configuration carrying an
explicit bounding box. -/
theorem C4_config_immutable_amended_witness :
    (render cfgBbox rnPlain ["pdf".toList] fpTest wOK).config_out.title
        = cfgBbox.title ∧
    (render cfgBbox rnPlain ["pdf".toList] fpTest wOK).config_out.osmid
        = cfgBbox.osmid ∧
    (render cfgBbox rnPlain ["pdf".toList] fpTest wOK).config_out.bounding_box
        = cfgBbox.bounding_box ∧
    (render cfgBbox rnPlain ["pdf".toList] fpTest wOK).config_out.language
        = cfgBbox.language ∧
    (render cfgBbox rnPlain ["pdf".toList] fpTest wOK).config_out.stylesheet
        = cfgBbox.stylesheet ∧
    (render cfgBbox rnPlain ["pdf".toList] fpTest wOK).config_out.paper_width_mm
        = cfgBbox.paper_width_mm ∧
    (render cfgBbox rnPlain ["pdf".toList] fpTest wOK).config_out.paper_height_mm
        = cfgBbox.paper_height_mm :=
  C4_config_immutable_amended cfgBbox rnPlain ["pdf".toList] fpTest wOK (by decide)

/-- Claim C7: within one render call that reached the output stage, a failure
while producing the output for some format in the caller-supplied list means
none of the formats after it are attempted, the output files completely
written for the earlier (successful) formats remain — nothing in `render`
ever deletes an output file — and the `finally:` workspace cleanup still
executes while the error propagates.  (`hlower` says the supplied format
strings are already lowercase, as the loop runs on the lowercased list.) -/
theorem C7_failure_aborts_remaining (cfg : RenderingConfiguration)
    (rname fp : List Char) (w : World) (pre post : List (List Char))
    (f : List Char)
    (hreach : reaches_output cfg w = true)
    (hlower : (pre ++ f :: post).map lowerStr = pre ++ f :: post)
    (hpre : ∀ g ∈ pre, isOk (_render_one w (fp ++ '.' :: g) g) = true)
    (hf : isOk (_render_one w (fp ++ '.' :: f) f) = false) :
    (render cfg rname (pre ++ f :: post) fp w).cleanup_ran = true ∧
    (render cfg rname (pre ++ f :: post) fp w).formats_attempted = pre ++ [f] ∧
    (render cfg rname (pre ++ f :: post) fp w).files_written =
      pre.filterMap (completed_file w fp) ∧
    isOk (render cfg rname (pre ++ f :: post) fp w).result = false := by
  obtain ⟨hc, ht, hres, hatt, hfil⟩ :=
    render_reaches_loop cfg rname (pre ++ f :: post) fp w hreach
  rw [hlower] at hres hatt hfil
  obtain ⟨l1, l2, l3⟩ := render_loop_abort w fp pre f post hpre hf
  refine ⟨hc, ?_, ?_, ?_⟩
  · rw [hatt, l1]
  · rw [hfil, l2]
  · rw [hres, l3]

/-- Witness for C7: formats `["pdf", "png", "ps"]` with the `png` session
failing — only `pdf` and `png` are attempted, the completed `pdf` file
remains, the cleanup runs and the call fails. -/
theorem C7_failure_aborts_remaining_witness :
    (render cfgOsm rnPlain (["pdf".toList] ++ "png".toList :: ["ps".toList])
        fpTest wPngFail).cleanup_ran = true ∧
    (render cfgOsm rnPlain (["pdf".toList] ++ "png".toList :: ["ps".toList])
        fpTest wPngFail).formats_attempted = ["pdf".toList] ++ ["png".toList] ∧
    (render cfgOsm rnPlain (["pdf".toList] ++ "png".toList :: ["ps".toList])
        fpTest wPngFail).files_written =
      ["pdf".toList].filterMap (completed_file wPngFail fpTest) ∧
    isOk (render cfgOsm rnPlain (["pdf".toList] ++ "png".toList :: ["ps".toList])
        fpTest wPngFail).result = false :=
  C7_failure_aborts_remaining cfgOsm rnPlain fpTest wPngFail
    ["pdf".toList] ["ps".toList] "png".toList
    (by decide) (by decide) (by decide) (by decide)

/-- A recognised (lowercased) format string is never rejected as unsupported
by `_render_one`'s dispatch chain. -/
theorem dispatch_supported (w : World) (filename g : List Char)
    (h : g ∈ SUPPORTED_FORMATS) :
    _render_one w filename g ≠ Except.error Err.unsupportedFormat := by
  simp only [SUPPORTED_FORMATS, List.mem_cons, List.not_mem_nil, or_false] at h
  unfold _render_one
  rcases h with h | h | h | h | h | h <;> subst h
  · rw [if_pos rfl]
    cases hs : w.render_session_ok "png".toList <;> simp [hs]
  · rw [if_neg (by decide), if_pos rfl]
    cases hs : w.render_session_ok "svg".toList <;> simp [hs]
  · rw [if_neg (by decide), if_neg (by decide), if_pos rfl]
    cases hs : w.render_session_ok "svgz".toList <;> simp [hs]
  · rw [if_neg (by decide), if_neg (by decide), if_neg (by decide), if_pos rfl]
    cases hs : w.render_session_ok "pdf".toList <;> simp [hs]
  · rw [if_neg (by decide), if_neg (by decide), if_neg (by decide),
        if_neg (by decide), if_pos rfl]
    cases hs : w.render_session_ok "ps".toList <;> simp [hs]
  · rw [if_neg (by decide), if_neg (by decide), if_neg (by decide),
        if_neg (by decide), if_neg (by decide), if_pos rfl]
    simp

/-- A format string outside the recognised set falls through the whole
dispatch chain of `_render_one` into the `ValueError` branch. -/
theorem dispatch_unsupported (w : World) (filename g : List Char)
    (h : g ∉ SUPPORTED_FORMATS) :
    _render_one w filename g = Except.error Err.unsupportedFormat := by
  simp only [SUPPORTED_FORMATS, List.mem_cons, List.not_mem_nil, or_false,
    not_or] at h
  obtain ⟨h1, h2, h3, h4, h5, h6⟩ := h
  unfold _render_one
  rw [if_neg h1, if_neg h2, if_neg h3, if_neg h4, if_neg h5, if_neg h6]

/-- Claim C6: after the lowercasing `render` applies to every requested
format (line 343), each supported format string — `png`, `svg`, `svgz`,
`pdf`, `ps` and the tabular `csv`, in any letter case — is accepted by
`_render_one`'s dispatch, and exactly the strings outside that set make the
render fail with the unsupported-output-format error. -/
theorem C6_format_dispatch (w : World) (filename fmt : List Char) :
    _render_one w filename (lowerStr fmt) = Except.error Err.unsupportedFormat ↔
      lowerStr fmt ∉ SUPPORTED_FORMATS := by
  constructor
  · intro h hmem
    exact dispatch_supported w filename (lowerStr fmt) hmem h
  · intro h
    exact dispatch_unsupported w filename (lowerStr fmt) h

/-- Claim C9: `get_stylesheet_by_name` is first-match-wins over the registry
order — it returns `s` exactly when the registry splits as `l1 ++ s :: l2`
with no stylesheet of the requested name in `l1` — and fails with the
`LookupError` exactly when no registered stylesheet carries the name. -/
theorem C9_lookup_first_match (reg : List Stylesheet) (nm : List Char) :
    (∀ s, get_stylesheet_by_name reg nm = Except.ok s ↔
       ∃ l1 l2, reg = l1 ++ s :: l2 ∧ s.name = nm ∧ ∀ t ∈ l1, t.name ≠ nm) ∧
    (get_stylesheet_by_name reg nm = Except.error Err.notFoundStylesheet ↔
       ∀ s ∈ reg, s.name ≠ nm) := by
  induction reg with
  | nil =>
    constructor
    · intro s
      constructor
      · intro h
        cases h
      · rintro ⟨l1, l2, hl, -, -⟩
        cases l1 <;> cases hl
    · simp [get_stylesheet_by_name]
  | cons a t ih =>
    obtain ⟨ih1, ih2⟩ := ih
    by_cases ha : a.name = nm
    · constructor
      · intro s
        constructor
        · intro h
          rw [get_stylesheet_by_name, if_pos ha] at h
          cases h
          exact ⟨[], t, rfl, ha, by simp⟩
        · rintro ⟨l1, l2, hl, hs, hnot⟩
          cases l1 with
          | nil =>
            rw [List.nil_append] at hl
            injection hl with h1 h2
            rw [get_stylesheet_by_name, if_pos ha, h1]
          | cons b l1' =>
            exfalso
            rw [List.cons_append] at hl
            injection hl with hb ht
            exact hnot b (List.mem_cons_self b l1') (hb ▸ ha)
      · constructor
        · intro h
          rw [get_stylesheet_by_name, if_pos ha] at h
          cases h
        · intro hall
          exact absurd ha (hall a (List.mem_cons_self a t))
    · have heq : get_stylesheet_by_name (a :: t) nm = get_stylesheet_by_name t nm := by
        rw [get_stylesheet_by_name, if_neg ha]
      constructor
      · intro s
        rw [heq, ih1 s]
        constructor
        · rintro ⟨l1, l2, hl, hs, hnot⟩
          refine ⟨a :: l1, l2, by rw [hl, List.cons_append], hs, ?_⟩
          intro x hx
          rcases List.mem_cons.mp hx with hx | hx
          · rw [hx]; exact ha
          · exact hnot x hx
        · rintro ⟨l1, l2, hl, hs, hnot⟩
          cases l1 with
          | nil =>
            exfalso
            rw [List.nil_append] at hl
            injection hl with h1 h2
            exact ha (h1 ▸ hs)
          | cons b l1' =>
            rw [List.cons_append] at hl
            injection hl with hb ht
            exact ⟨l1', l2, ht, hs,
              fun x hx => hnot x (List.mem_cons_of_mem b hx)⟩
      · rw [heq, ih2]
        constructor
        · intro h x hx
          rcases List.mem_cons.mp hx with hx | hx
          · rw [hx]; exact ha
          · exact h x hx
        · intro h x hx
          exact h x (List.mem_cons_of_mem a hx)

/-- Claim C10: a `Stylesheet` built by `create_from_config_section` carries,
for each field, the value of the section's option when present and otherwise
the constructor's default — description `''`, zoom_level `16`,
grid_line_color `'black'`, grid_line_alpha `0.5`, grid_line_width `3`,
shade_color `'black'`, shade_alpha `0.1` — so a section providing only the
required `name` and `path` yields exactly the defaults, and each present
option overrides only its own field. -/
theorem C10_stylesheet_defaults (sec : StylesheetSection) :
    (create_from_config_section sec).name = sec.name ∧
    (create_from_config_section sec).path = sec.path ∧
    (create_from_config_section sec).description = sec.description.getD [] ∧
    (create_from_config_section sec).zoom_level = sec.zoom_level.getD 16 ∧
    (create_from_config_section sec).grid_line_color =
      sec.grid_line_color.getD "black".toList ∧
    (create_from_config_section sec).grid_line_alpha =
      sec.grid_line_alpha.getD 0.5 ∧
    (create_from_config_section sec).grid_line_width =
      sec.grid_line_width.getD 3 ∧
    (create_from_config_section sec).shade_color =
      sec.shade_color.getD "black".toList ∧
    (create_from_config_section sec).shade_alpha = sec.shade_alpha.getD 0.1 := by
  rcases sec with ⟨nm, pth, d, z, gc, ga, gw, sc, sa⟩
  unfold create_from_config_section stylesheetWithDefaults
  cases d <;> cases z <;> cases gc <;> cases ga <;> cases gw <;> cases sc <;>
      cases sa <;>
    exact ⟨rfl, rfl, rfl, rfl, rfl, rfl, rfl, rfl, rfl⟩

end Ocitysmap
